import Mathlib

/-!
Verification development for the editable-dataframe Snowflake app
(`streamlit_app.py`).  The warehouse is modelled as an association list of
named tables, a table as a schema (column names), a list of rows and a
temp flag; a row is an association list from column name to nullable
scalar.  The upsert routine `upsert_data`, the fetch routine
`fetch_and_display_data`, the row-insertion routine `insert_new_row` and
the top-level page script are embedded from the source; external effects
(session creation, query execution) are supplied by environment records.
-/

/-- Nullable scalar cell value (SQL NULL is `none`). -/
abbrev Value := Option String

/-- A row: mapping from column name to value, in column order. -/
abbrev Row := List (String × Value)

variable {α : Type}

/-- First value bound to key `k`, if any. -/
def lookupA : List (String × α) → String → Option α
  | [], _ => none
  | p :: ps, k => if p.1 == k then some p.2 else lookupA ps k

/-- Whether some entry has key `k`. -/
def hasKey (l : List (String × α)) (k : String) : Bool :=
  l.any fun p => p.1 == k

/-- Replace the entry for `k` by `(k, v)`, leave others alone. -/
def replaceEntry (k : String) (v : α) (p : String × α) : String × α :=
  if p.1 == k then (k, v) else p

/-- Update the binding of `k` to `v` in place, appending when absent. -/
def setA (l : List (String × α)) (k : String) (v : α) : List (String × α) :=
  if hasKey l k then l.map (replaceEntry k v) else l ++ [(k, v)]

/-- Value of column `c` in row `r`; a missing column reads as NULL. -/
def getCol (r : Row) (c : String) : Value := (lookupA r c).join

/-- SQL equality on nullable values: NULL compares unequal to everything. -/
def sqlEq : Value → Value → Bool
  | some a, some b => a == b
  | _, _ => false

/-- The ON clause of the merge (source line 79):
`target.ORGANIZATIONID = source.ORGANIZATIONID AND target.LEVEL1FORCEID = source.LEVEL1FORCEID`. -/
def rowMatch (t s : Row) : Bool :=
  sqlEq (getCol t "ORGANIZATIONID") (getCol s "ORGANIZATIONID") &&
    sqlEq (getCol t "LEVEL1FORCEID") (getCol s "LEVEL1FORCEID")

/-- The WHEN MATCHED branch (source lines 80-83): update SALES and REVENUE
of the target row from the source row. -/
def updateRow (t s : Row) : Row :=
  setA (setA t "SALES" (getCol s "SALES")) "REVENUE" (getCol s "REVENUE")

/-- MergePlan update columns. -/
def updateColumns : List String := ["SALES", "REVENUE"]

/-- MergePlan insert columns: the column list of the WHEN NOT MATCHED
INSERT branch (source lines 85-91); the VALUES list (lines 92-100) names
the same columns of `source` in the same order. -/
def insertColumns : List String :=
  ["ORGANIZATIONID", "LEVEL1FORCEID", "LEVEL1ACCOUNTNAME", "LEVEL1DISPLAYACCOUNTNAME",
   "LEVEL1ACCOUNTTYPE", "LEVEL1FEDERALTAXID", "LEVEL1ADDRESS", "LEVEL1ADDRESS2",
   "LEVEL1CITY", "LEVEL1STATE", "LEVEL1COUNTY", "LEVEL1POSTALCODE", "LEVEL1COUNTRY",
   "LEVEL1SEGMENTATION", "LEVEL1SECTOR", "LEVEL1METROAREANAME",
   "LEVEL1METROAREATOTALPOPULATION", "SECTORKEY", "SECTORID", "ACCOUNTORGANIZATIONID",
   "FORCEID", "SUPPLIERNAME", "CONTRACTID", "ACCOUNTSTATUS", "RECEIPTDATE",
   "SALES", "REVENUE", "BUDGETSALESAMOUNT", "BUDGETREVENUEAMOUNT",
   "SALESTERRITORYKEY", "TERRITORYNAME", "TERRITORYMANAGER", "TERRITORYSUPERVISOR",
   "ACCOUNTOWNER", "SOURCEENTITYNAME", "ORGANIZATIONNAME", "CONTRACTNUMBER",
   "CONTRACTNAME"]

/-- The row inserted for an unmatched source row: the insert columns,
each carrying the source row's value for that column. -/
def insertRowOf (s : Row) : Row := insertColumns.map fun c => (c, getCol s c)

/-- Whether at least two source rows match target row `t` (Snowflake
rejects such a merge as nondeterministic under its default
ERROR_ON_NONDETERMINISTIC_MERGE setting). -/
def hasTwoMatches (src : List Row) (t : Row) : Bool :=
  match src.filter fun s => rowMatch t s with
  | _ :: _ :: _ => true
  | _ => false

/-- Semantics of the MERGE statement (source lines 76-102): each target
row matched by a source row is updated from the first such source row;
each source row matching no target row is inserted; a target row matched
by two or more source rows is a nondeterministic-merge error. -/
def mergeRows (tgt src : List Row) : Except String (List Row) :=
  if tgt.any (hasTwoMatches src) then
    Except.error "nondeterministic merge: duplicate source rows match one target row"
  else
    Except.ok
      ((tgt.map fun t =>
          match src.find? (fun s => rowMatch t s) with
          | some s => updateRow t s
          | none => t) ++
        ((src.filter fun s => !tgt.any fun t => rowMatch t s).map insertRowOf))

/-- Both KeySpec columns of the row are non-null. -/
def nonNullKeys (s : Row) : Bool :=
  (getCol s "ORGANIZATIONID").isSome && (getCol s "LEVEL1FORCEID").isSome

/-- Specification of one executed merge, phrased over column reads:
matching is the conjunction of the two key equalities; a matched target
row has exactly its update columns overwritten with the staged values; an
unmatched target row is unchanged; the unmatched staged rows are appended
as new rows covering the insert columns with the staged values. -/
def MergeSemanticsSpec (tgt src res : List Row) : Prop :=
  (∀ t s, rowMatch t s = true ↔
      (sqlEq (getCol t "ORGANIZATIONID") (getCol s "ORGANIZATIONID") = true ∧
        sqlEq (getCol t "LEVEL1FORCEID") (getCol s "LEVEL1FORCEID") = true)) ∧
  (∀ i, i < tgt.length →
      (∀ s, src.find? (fun x => rowMatch (tgt.getD i []) x) = some s →
          ∀ c, getCol (res.getD i []) c =
            if c ∈ updateColumns then getCol s c else getCol (tgt.getD i []) c) ∧
      (src.find? (fun x => rowMatch (tgt.getD i []) x) = none →
          res.getD i [] = tgt.getD i [])) ∧
  (res.drop tgt.length =
      (src.filter fun s => !tgt.any fun t => rowMatch t s).map insertRowOf) ∧
  (∀ s, ∀ c ∈ insertColumns, getCol (insertRowOf s) c = getCol s c) ∧
  (∀ s ∈ src, (∀ t ∈ tgt, rowMatch t s = false) → insertRowOf s ∈ res)

/-- A warehouse table: schema (column names), contents and whether it is
a session-scoped temporary table. -/
structure Table where
  schema : List String
  rows : List Row
  temp : Bool
deriving DecidableEq

/-- The warehouse: named tables. -/
abbrev Warehouse := List (String × Table)

def lookupTable (w : Warehouse) (n : String) : Option Table := lookupA w n

def setTable (w : Warehouse) (n : String) (t : Table) : Warehouse := setA w n t

/-- Staging table name (source line 65): the fixed string
`f"\x7btable_name\x7d_STAGING"`. -/
def stagingTableName (table_name : String) : String := table_name ++ "_STAGING"

/-- Step 2 (source line 67): `CREATE OR REPLACE TEMP TABLE staging AS
SELECT * FROM table_name LIMIT 0` — temp table, schema cloned from the
target, zero rows.  Fails when the target table does not exist. -/
def createStagingStep (w : Warehouse) (table_name : String) : Option Warehouse :=
  match lookupTable w table_name with
  | none => none
  | some tgt =>
      some (setTable w (stagingTableName table_name)
        { schema := tgt.schema, rows := tgt.rows.take 0, temp := true })

/-- Step 3 (source line 73): `write_pandas(df_sel_row, staging_table,
auto_create_table=False, overwrite=True)` — overwrite the staging table's
contents with the selected rows; fails when the staging table is absent
(no auto-creation). -/
def loadStagingStep (w : Warehouse) (table_name : String) (rows : List Row) : Option Warehouse :=
  match lookupTable w (stagingTableName table_name) with
  | none => none
  | some stg =>
      some (setTable w (stagingTableName table_name)
        { schema := stg.schema, rows := rows, temp := stg.temp })

/-- Step 4 (source lines 76-102): execute the MERGE from staging into the
target table. -/
def mergeStep (w : Warehouse) (table_name : String) : Option Warehouse :=
  match lookupTable w table_name, lookupTable w (stagingTableName table_name) with
  | some tgt, some stg =>
      match mergeRows tgt.rows stg.rows with
      | Except.ok newRows =>
          some (setTable w table_name
            { schema := tgt.schema, rows := newRows, temp := tgt.temp })
      | Except.error _ => none
  | _, _ => none

/-- The Snowflake session handle as seen by `upsert_data`: which of the
three warehouse calls raise an exogenous error (network, permissions...)
when executed through it. -/
structure SnowSession where
  createFails : Bool
  loadFails : Bool
  mergeFails : Bool
deriving DecidableEq

/-- Outcome signalled by `upsert_data`: `st.success`, `st.error`, or the
`st.info("No data to upload.")` no-op signal. -/
inductive UpsertResult where
  | success
  | failure
  | noOp
deriving DecidableEq

/-- Warehouse write operations actually performed by one upsert call. -/
inductive Op where
  | createStaging (name : String)
  | bulkLoad (name : String) (rows : List Row)
  | mergeInto (target source : String)
deriving DecidableEq

/-- `upsert_data(session, df_sel_row, table_name)` (source lines 61-109):
empty input short-circuits to the no-op signal; otherwise create staging,
bulk-load it, and merge, aborting at the first failing step (the `try`
block catches the exception and reports `st.error`).  Returns the new
warehouse state, the signalled result, and the list of writes
performed. -/
def upsert_data (session : SnowSession) (df_sel_row : List Row) (table_name : String)
    (w : Warehouse) : Warehouse × UpsertResult × List Op :=
  if df_sel_row.isEmpty then (w, UpsertResult.noOp, [])
  else
    let staging := stagingTableName table_name
    if session.createFails then (w, UpsertResult.failure, [])
    else
      match createStagingStep w table_name with
      | none => (w, UpsertResult.failure, [])
      | some w1 =>
        if session.loadFails then (w1, UpsertResult.failure, [Op.createStaging staging])
        else
          match loadStagingStep w1 table_name df_sel_row with
          | none => (w1, UpsertResult.failure, [Op.createStaging staging])
          | some w2 =>
            if session.mergeFails then
              (w2, UpsertResult.failure,
                [Op.createStaging staging, Op.bulkLoad staging df_sel_row])
            else
              match mergeStep w2 table_name with
              | none =>
                  (w2, UpsertResult.failure,
                    [Op.createStaging staging, Op.bulkLoad staging df_sel_row])
              | some w3 =>
                  (w3, UpsertResult.success,
                    [Op.createStaging staging, Op.bulkLoad staging df_sel_row,
                      Op.mergeInto table_name staging])

/-- Source line 9. -/
def DATABASE : String := "OMNI_DATA"

/-- Source line 10. -/
def SCHEMA : String := "PUBLIC"

/-- Source line 11. -/
def TABLE_NAME : String := "SALES_REVENUE"

/-- Source line 139: `query = f"SELECT * FROM \x7bTABLE_NAME\x7d LIMIT 10"`. -/
def query : String := "SELECT * FROM " ++ TABLE_NAME ++ " LIMIT 10"

/-- A user-visible message: `st.error` / `st.success` / `st.info` /
`st.warning`. -/
inductive Msg where
  | error (s : String)
  | success (s : String)
  | info (s : String)
  | warning (s : String)
deriving DecidableEq

/-- External world as seen by the script: outcome of the secrets lookup
(`Except.error` = exception, `ok false` = falsy credentials), of session
creation (`ok false` = builder returned None), and of read/write SQL
execution through a live session. -/
structure SnowEnv where
  secretsLookup : Except String Bool
  connect : Except String Bool
  runQuery : String → Except String (List Row)
  execWrite : String → Except String Unit

/-- `create_snowflake_session()` (source lines 17-45): returns the session
handle or `none`, together with the messages shown. -/
def create_snowflake_session (env : SnowEnv) : Option Unit × List Msg :=
  match env.secretsLookup with
  | Except.error e => (none, [Msg.error ("Error creating Snowflake session: " ++ e)])
  | Except.ok false => (none, [Msg.error "Snowflake credentials not found in secrets.toml."])
  | Except.ok true =>
      match env.connect with
      | Except.error e => (none, [Msg.error ("Error creating Snowflake session: " ++ e)])
      | Except.ok false => (none, [Msg.error "Failed to create Snowflake session."])
      | Except.ok true => (some (), [Msg.success "Snowflake session created successfully."])

/-- `fetch_and_display_data(query)` (source lines 47-59): returns the
materialized rows (empty on any failure), the messages shown, and the
read statements actually sent to the warehouse. -/
def fetch_and_display_data (env : SnowEnv) (q : String) : List Row × List Msg × List String :=
  match create_snowflake_session env with
  | (none, msgs) => ([], msgs, [])
  | (some _, msgs) =>
      match env.runQuery q with
      | Except.ok df => (df, msgs, [q])
      | Except.error e =>
          ([], msgs ++ [Msg.error ("Error fetching data from Snowflake: " ++ e)], [q])

/-- The initial fetch of the page (source line 140): `df =
fetch_and_display_data(query)`. -/
def pageFetch (env : SnowEnv) : List Row × List Msg × List String :=
  fetch_and_display_data env query

/-- The literal rendering `f"'\x7bvalue\x7d'"` of one field value
(source line 128). -/
def quoteValue (value : String) : String := "'" ++ value ++ "'"

/-- The INSERT statement built by `insert_new_row` (source lines
127-129): column list from the mapping's keys in order, values by literal
interpolation. -/
def insert_query (table_name : String) (new_row : List (String × String)) : String :=
  let columns := String.intercalate ", " (new_row.map Prod.fst)
  let values := String.intercalate ", " (new_row.map fun p => quoteValue p.2)
  "INSERT INTO " ++ table_name ++ " (" ++ columns ++ ") VALUES (" ++ values ++ ")"

/-- `insert_new_row(session, table_name, new_row)` (source lines
123-134): messages shown and statements executed. -/
def insert_new_row (env : SnowEnv) (table_name : String)
    (new_row : List (String × String)) : List Msg × List String :=
  let q := insert_query table_name new_row
  match env.execWrite q with
  | Except.ok _ => ([Msg.success "New row inserted successfully!"], [q])
  | Except.error e => ([Msg.error ("Error inserting new row: " ++ e)], [q])

/-- The form body (source lines 172-174): one text input per dataframe
column, collected into the field mapping in column order (`st.text_input`
yields `""` when the user leaves a field empty). -/
def new_row_form (cols : List String) (inputs : String → String) : List (String × String) :=
  cols.map fun col => (col, inputs col)

/-- Column list of a fetched dataframe. -/
def dfColumns : List Row → List String
  | [] => []
  | r :: _ => r.map Prod.fst

/-- Message shown by `upsert_data` for each outcome (source lines 105,
107, 109). -/
def resultMsg (res : UpsertResult) (table_name : String) : Msg :=
  match res with
  | UpsertResult.success => Msg.success ("Data upserted to " ++ table_name ++ " table.")
  | UpsertResult.failure => Msg.error "Error executing upsert"
  | UpsertResult.noOp => Msg.info "No data to upload."

/-- `upload_to_snowflake(df, table_name)` (source lines 111-121): open a
fresh session, then run the upsert through it. -/
def upload_to_snowflake (env : SnowEnv) (sess : SnowSession) (w : Warehouse)
    (df : List Row) (table_name : String) : Warehouse × List Msg :=
  match create_snowflake_session env with
  | (none, msgs) => (w, msgs)
  | (some _, msgs) =>
      let out := upsert_data sess df table_name w
      (out.1, msgs ++ [resultMsg out.2.1 table_name])

/-- Result of one top-level script run: it either completes showing
messages, or terminates with an uncaught exception. -/
inductive ScriptOutcome where
  | completed (msgs : List Msg) (w : Warehouse)
  | crashed (err : String) (w : Warehouse)
deriving DecidableEq

/-- The top-level script (source lines 136-188).  `df_sel_row` is bound
only inside the non-empty branch (lines 144-166); the upload handler
(lines 184-187) reads it unconditionally, so with an empty fetch Python
raises an uncaught NameError, modelled as the `crashed` outcome. -/
def page_script (env : SnowEnv) (sess : SnowSession) (w : Warehouse)
    (gridSelection : List Row) (inputs : String → String)
    (formSubmitted uploadPressed : Bool) : ScriptOutcome :=
  let fr := pageFetch env
  let df := fr.1
  let base :=
    if df.isEmpty then (fr.2.1 ++ [Msg.info "No data to display."], (none : Option (List Row)))
    else (fr.2.1, some gridSelection)
  let msgs1 := base.1
  let df_sel_row := base.2
  let msgs2 :=
    if formSubmitted then
      match create_snowflake_session env with
      | (none, m) => msgs1 ++ m
      | (some _, m) =>
          msgs1 ++ m ++ (insert_new_row env TABLE_NAME (new_row_form (dfColumns df) inputs)).1
    else msgs1
  if uploadPressed then
    match df_sel_row with
    | none => ScriptOutcome.crashed "NameError: name df_sel_row is not defined" w
    | some sel =>
        if sel.isEmpty then
          ScriptOutcome.completed (msgs2 ++ [Msg.warning "Please select rows to upload."]) w
        else
          let up := upload_to_snowflake env sess w sel TABLE_NAME
          ScriptOutcome.completed (msgs2 ++ up.2) up.1
  else ScriptOutcome.completed msgs2 w

/-- Example target row for witnesses. -/
def rowT1 : Row :=
  [("ORGANIZATIONID", some "1"), ("LEVEL1FORCEID", some "10"),
   ("SALES", some "5"), ("REVENUE", some "50")]

/-- Staged row matching `rowT1` on both key columns. -/
def rowS1 : Row :=
  [("ORGANIZATIONID", some "1"), ("LEVEL1FORCEID", some "10"),
   ("SALES", some "7"), ("REVENUE", some "70")]

/-- Staged row matching no target row. -/
def rowS2 : Row :=
  [("ORGANIZATIONID", some "2"), ("LEVEL1FORCEID", some "20"),
   ("SALES", some "9"), ("REVENUE", some "90")]

/-- Small warehouse holding the target table. -/
def w0 : Warehouse :=
  [("SALES_REVENUE",
    { schema := ["ORGANIZATIONID", "LEVEL1FORCEID", "SALES", "REVENUE"],
      rows := [rowT1], temp := false })]

/-- Environment whose read query fails. -/
def envBad : SnowEnv :=
  { secretsLookup := Except.ok true, connect := Except.ok true,
    runQuery := fun _ => Except.error "boom",
    execWrite := fun _ => Except.ok () }

/-- Environment whose read query returns no rows. -/
def envEmpty : SnowEnv :=
  { secretsLookup := Except.ok true, connect := Except.ok true,
    runQuery := fun _ => Except.ok [],
    execWrite := fun _ => Except.ok () }

/-- Claim C2: upsert with an empty RowSet performs no writes (no staging
creation, no bulk load, no merge) and signals the no-op outcome. -/
theorem upsert_empty_noop (sess : SnowSession) (rows : List Row) (table_name : String)
    (w : Warehouse) (h : rows = []) :
    upsert_data sess rows table_name w = (w, UpsertResult.noOp, []) := by
  subst h
  rfl

/-- Witness for `upsert_empty_noop` at a concrete call. -/
theorem upsert_empty_noop_witness :
    ([] : List Row) = [] ∧
      upsert_data ⟨false, false, false⟩ [] "SALES_REVENUE" w0 =
        (w0, UpsertResult.noOp, []) :=
  ⟨rfl, upsert_empty_noop ⟨false, false, false⟩ [] "SALES_REVENUE" w0 rfl⟩

theorem lookupA_map_replace_of_hasKey {l : List (String × α)} {k : String} (v : α)
    (h : hasKey l k = true) :
    lookupA (l.map (replaceEntry k v)) k = some v := by
  induction l with
  | nil => simp [hasKey] at h
  | cons p ps ih =>
    cases hp : (p.1 == k) with
    | true => simp [lookupA, replaceEntry, hp]
    | false =>
      have h' : hasKey ps k = true := by
        simp only [hasKey, List.any_cons, hp, Bool.false_or] at h
        exact h
      simp [lookupA, replaceEntry, hp, ih h']

theorem all_keys_ne_of_not_hasKey {l : List (String × α)} {k : String}
    (h : hasKey l k = false) : ∀ p ∈ l, (p.1 == k) = false := by
  intro p hp
  have := List.any_eq_false.mp h p hp
  simpa using this

theorem lookupA_append_of_not_hasKey {l : List (String × α)} {k : String}
    (m : List (String × α)) (h : hasKey l k = false) :
    lookupA (l ++ m) k = lookupA m k := by
  induction l with
  | nil => rfl
  | cons p ps ih =>
    have hp : (p.1 == k) = false := all_keys_ne_of_not_hasKey h p (by simp)
    have h' : hasKey ps k = false := by
      simp only [hasKey, List.any_cons, hp, Bool.false_or] at h
      exact h
    simp [lookupA, hp, ih h']

theorem lookupA_setA_self (l : List (String × α)) (k : String) (v : α) :
    lookupA (setA l k v) k = some v := by
  unfold setA
  split
  · exact lookupA_map_replace_of_hasKey v (by assumption)
  · rename_i h
    rw [lookupA_append_of_not_hasKey _ (by simpa using h)]
    simp [lookupA]

theorem lookupA_map_replace_ne {l : List (String × α)} {k k' : String} (v : α)
    (h : k' ≠ k) :
    lookupA (l.map (replaceEntry k v)) k' = lookupA l k' := by
  have hkk : (k == k') = false := by
    simp only [beq_eq_false_iff_ne, ne_eq]
    exact fun hkk => h hkk.symm
  induction l with
  | nil => rfl
  | cons p ps ih =>
    cases hp : (p.1 == k) with
    | true =>
      have hpk : p.1 = k := by simpa using hp
      have h2 : (p.1 == k') = false := by rw [hpk]; exact hkk
      simp [lookupA, replaceEntry, hp, hkk, h2, ih]
    | false =>
      cases hq : (p.1 == k') with
      | true => simp [lookupA, replaceEntry, hp, hq]
      | false => simp [lookupA, replaceEntry, hp, hq, ih]

theorem lookupA_append_single_ne (l : List (String × α)) {k k' : String} (v : α)
    (h : k' ≠ k) :
    lookupA (l ++ [(k, v)]) k' = lookupA l k' := by
  have hkk : (k == k') = false := by
    simp only [beq_eq_false_iff_ne, ne_eq]
    exact fun hkk => h hkk.symm
  induction l with
  | nil => simp [lookupA, hkk]
  | cons p ps ih =>
    cases hp : (p.1 == k') with
    | true => simp [lookupA, hp]
    | false => simp [lookupA, hp, ih]

theorem lookupA_setA_ne (l : List (String × α)) {k k' : String} (v : α) (h : k' ≠ k) :
    lookupA (setA l k v) k' = lookupA l k' := by
  unfold setA
  split
  · exact lookupA_map_replace_ne v h
  · exact lookupA_append_single_ne l v h

theorem hasKey_cons (p : String × α) (l : List (String × α)) (k : String) :
    hasKey (p :: l) k = ((p.1 == k) || hasKey l k) := by
  simp [hasKey]

theorem hasKey_map_replace (l : List (String × α)) (k : String) (v : α) (k'' : String) :
    hasKey (l.map (replaceEntry k v)) k'' = hasKey l k'' := by
  induction l with
  | nil => rfl
  | cons p ps ih =>
    rw [List.map_cons, hasKey_cons, hasKey_cons, ih]
    cases hp : (p.1 == k) with
    | true =>
      have hpk : p.1 = k := by simpa using hp
      rw [show replaceEntry k v p = (k, v) by simp [replaceEntry, hp]]
      rw [hpk]
    | false =>
      rw [show replaceEntry k v p = p by simp [replaceEntry, hp]]

theorem hasKey_setA_self (l : List (String × α)) (k : String) (v : α) :
    hasKey (setA l k v) k = true := by
  unfold setA
  split
  · rename_i h
    rw [hasKey_map_replace]
    exact h
  · simp [hasKey, List.any_append, List.any_cons]

theorem hasKey_setA_mono (l : List (String × α)) (k k'' : String) (v : α)
    (h : hasKey l k'' = true) : hasKey (setA l k v) k'' = true := by
  unfold setA
  split
  · rw [hasKey_map_replace]
    exact h
  · simp only [hasKey, List.any_append, Bool.or_eq_true]
    left
    exact h

theorem map_eq_self_of {β : Type} {l : List β} {f : β → β} (h : ∀ x ∈ l, f x = x) :
    l.map f = l := by
  induction l with
  | nil => rfl
  | cons a as ih =>
    simp only [List.map_cons]
    rw [h a (by simp), ih (fun x hx => h x (by simp [hx]))]

theorem setA_setA_self (l : List (String × α)) (k : String) (v v' : α) :
    setA (setA l k v) k v' = setA l k v' := by
  by_cases h : hasKey l k = true
  · have h1 : setA l k v = l.map (replaceEntry k v) := by unfold setA; rw [if_pos h]
    have h3 : hasKey (setA l k v) k = true := hasKey_setA_self l k v
    rw [h1] at h3
    rw [h1]
    have h2 : setA l k v' = l.map (replaceEntry k v') := by unfold setA; rw [if_pos h]
    rw [h2]
    unfold setA
    rw [if_pos h3, List.map_map]
    refine List.map_congr_left ?_
    intro p _
    simp only [Function.comp_apply, replaceEntry]
    cases hp : (p.1 == k) with
    | true => simp [hp]
    | false => simp [hp]
  · have hf : hasKey l k = false := by simpa using h
    have h1 : setA l k v = l ++ [(k, v)] := by unfold setA; rw [if_neg h]
    have h3 : hasKey (setA l k v) k = true := hasKey_setA_self l k v
    rw [h1] at h3
    rw [h1]
    have h2 : setA l k v' = l ++ [(k, v')] := by unfold setA; rw [if_neg h]
    rw [h2]
    unfold setA
    rw [if_pos h3, List.map_append]
    have hl : l.map (replaceEntry k v') = l := by
      refine map_eq_self_of ?_
      intro p hp
      have := all_keys_ne_of_not_hasKey hf p hp
      simp [replaceEntry, this]
    rw [hl]
    simp [replaceEntry]

theorem entry_val_setA_self (l : List (String × α)) (k : String) (v : α) :
    ∀ p ∈ setA l k v, p.1 = k → p.2 = v := by
  intro p hp hk
  unfold setA at hp
  split at hp
  · rcases List.mem_map.mp hp with ⟨q, _, hq⟩
    unfold replaceEntry at hq
    split at hq
    · rw [← hq]
    · rename_i hq1
      rw [← hq] at hk
      exact absurd (by simpa using hk) hq1
  · rename_i h
    rcases List.mem_append.mp hp with h1 | h1
    · have := all_keys_ne_of_not_hasKey (by simpa using h) p h1
      rw [hk] at this
      simp at this
    · have : p = (k, v) := by simpa using h1
      rw [this]

theorem entry_val_setA_other (l : List (String × α)) {k k' : String} {v : α} (v' : α)
    (hne : k ≠ k') (hv : ∀ p ∈ l, p.1 = k → p.2 = v) :
    ∀ p ∈ setA l k' v', p.1 = k → p.2 = v := by
  intro p hp hk
  unfold setA at hp
  split at hp
  · rcases List.mem_map.mp hp with ⟨q, hq0, hq⟩
    unfold replaceEntry at hq
    split at hq
    · rw [← hq] at hk
      exact absurd hk.symm hne
    · rw [← hq] at hk ⊢
      exact hv q hq0 hk
  · rcases List.mem_append.mp hp with h1 | h1
    · exact hv p h1 hk
    · have : p = (k', v') := by simpa using h1
      rw [this] at hk
      exact absurd hk.symm hne

theorem setA_eq_self {l : List (String × α)} {k : String} {v : α}
    (hk : hasKey l k = true) (hv : ∀ p ∈ l, p.1 = k → p.2 = v) :
    setA l k v = l := by
  unfold setA
  rw [if_pos hk]
  refine map_eq_self_of ?_
  intro p hp
  unfold replaceEntry
  split
  · rename_i hq
    have h1 : p.1 = k := by simpa using hq
    have h2 : p.2 = v := hv p hp h1
    rw [← h1, ← h2]
  · rfl

theorem setA_comm (l : List (String × α)) {k k' : String} (v v' : α) (hne : k ≠ k')
    (hk : hasKey l k = true ∨ hasKey l k' = true) :
    setA (setA l k v) k' v' = setA (setA l k' v') k v := by
  have hbne : ∀ (q : String × α), (q.1 == k) = true → (q.1 == k') = false := by
    intro q hq
    have : q.1 = k := by simpa using hq
    simp only [beq_eq_false_iff_ne, ne_eq, this]
    exact hne
  by_cases h1 : hasKey l k = true
  · by_cases h2 : hasKey l k' = true
    · -- both keys present: both sides are double map-replacements
      have e1 : setA l k v = l.map (replaceEntry k v) := by unfold setA; rw [if_pos h1]
      have e2 : setA l k' v' = l.map (replaceEntry k' v') := by unfold setA; rw [if_pos h2]
      have h1' : hasKey (l.map (replaceEntry k' v')) k = true := by
        rw [hasKey_map_replace]; exact h1
      have h2' : hasKey (l.map (replaceEntry k v)) k' = true := by
        rw [hasKey_map_replace]; exact h2
      rw [e1, e2]
      unfold setA
      rw [if_pos h2', if_pos h1', List.map_map, List.map_map]
      refine List.map_congr_left ?_
      intro p _
      simp only [Function.comp_apply]
      unfold replaceEntry
      cases hp : (p.1 == k) with
      | true =>
        have hp' : (p.1 == k') = false := hbne p hp
        have hkk' : (k == k') = false := by
          simp only [beq_eq_false_iff_ne, ne_eq]; exact hne
        simp [hp, hp', hkk']
      | false =>
        cases hq : (p.1 == k') with
        | true =>
          have hkk : (k' == k) = false := by
            simp only [beq_eq_false_iff_ne, ne_eq]
            exact fun hx => hne hx.symm
          simp [hp, hq, hkk]
        | false => simp [hp, hq]
    · -- k present, k' absent
      have h2f : hasKey l k' = false := by simpa using h2
      have e1 : setA l k v = l.map (replaceEntry k v) := by unfold setA; rw [if_pos h1]
      have e2 : setA l k' v' = l ++ [(k', v')] := by unfold setA; rw [if_neg h2]
      have h2' : hasKey (l.map (replaceEntry k v)) k' = false := by
        rw [hasKey_map_replace]; exact h2f
      have h1' : hasKey (l ++ [(k', v')]) k = true := by
        simp only [hasKey, List.any_append, Bool.or_eq_true]
        left
        exact h1
      rw [e1, e2]
      unfold setA
      rw [if_neg (by simp [h2']), if_pos h1', List.map_append]
      have : List.map (replaceEntry k v) [(k', v')] = [(k', v')] := by
        have : (k' == k) = false := by
          simp only [beq_eq_false_iff_ne, ne_eq]
          exact fun hx => hne hx.symm
        simp [replaceEntry, this]
      rw [this]
  · -- k absent, hence k' present
    have h2 : hasKey l k' = true := by
      rcases hk with h | h
      · exact absurd h h1
      · exact h
    have h1f : hasKey l k = false := by simpa using h1
    have e1 : setA l k v = l ++ [(k, v)] := by unfold setA; rw [if_neg h1]
    have e2 : setA l k' v' = l.map (replaceEntry k' v') := by unfold setA; rw [if_pos h2]
    have h2' : hasKey (l ++ [(k, v)]) k' = true := by
      simp only [hasKey, List.any_append, Bool.or_eq_true]
      left
      exact h2
    have h1' : hasKey (l.map (replaceEntry k' v')) k = false := by
      rw [hasKey_map_replace]; exact h1f
    rw [e1, e2]
    unfold setA
    rw [if_pos h2', if_neg (by simp [h1']), List.map_append]
    have : List.map (replaceEntry k' v') [(k, v)] = [(k, v)] := by
      have : (k == k') = false := by
        simp only [beq_eq_false_iff_ne, ne_eq]
        exact hne
      simp [replaceEntry, this]
    rw [this]

theorem getCol_setA_self (r : Row) (c : String) (v : Value) :
    getCol (setA r c v) c = v := by
  unfold getCol
  rw [lookupA_setA_self]
  rfl

theorem getCol_setA_ne (r : Row) {c c' : String} (v : Value) (h : c' ≠ c) :
    getCol (setA r c v) c' = getCol r c' := by
  unfold getCol
  rw [lookupA_setA_ne r v h]

theorem getCol_updateRow_sales (t s : Row) :
    getCol (updateRow t s) "SALES" = getCol s "SALES" := by
  unfold updateRow
  rw [getCol_setA_ne _ _ (by decide), getCol_setA_self]

theorem getCol_updateRow_revenue (t s : Row) :
    getCol (updateRow t s) "REVENUE" = getCol s "REVENUE" := by
  unfold updateRow
  rw [getCol_setA_self]

theorem getCol_updateRow_other (t s : Row) {c : String} (h1 : c ≠ "SALES")
    (h2 : c ≠ "REVENUE") : getCol (updateRow t s) c = getCol t c := by
  unfold updateRow
  rw [getCol_setA_ne _ _ h2, getCol_setA_ne _ _ h1]

theorem rowMatch_updateRow_left (t s0 s : Row) :
    rowMatch (updateRow t s0) s = rowMatch t s := by
  unfold rowMatch
  rw [getCol_updateRow_other t s0 (by decide) (by decide),
    getCol_updateRow_other t s0 (by decide) (by decide)]

theorem hasKey_updateRow_sales (t s : Row) : hasKey (updateRow t s) "SALES" = true := by
  unfold updateRow
  exact hasKey_setA_mono _ _ _ _ (hasKey_setA_self _ _ _)

theorem hasKey_updateRow_revenue (t s : Row) : hasKey (updateRow t s) "REVENUE" = true := by
  unfold updateRow
  exact hasKey_setA_self _ _ _

theorem entry_val_updateRow_sales (t s : Row) :
    ∀ p ∈ updateRow t s, p.1 = "SALES" → p.2 = getCol s "SALES" := by
  unfold updateRow
  exact entry_val_setA_other _ _ (by decide) (entry_val_setA_self _ _ _)

theorem entry_val_updateRow_revenue (t s : Row) :
    ∀ p ∈ updateRow t s, p.1 = "REVENUE" → p.2 = getCol s "REVENUE" := by
  unfold updateRow
  exact entry_val_setA_self _ _ _

theorem updateRow_updateRow_self (t s : Row) :
    updateRow (updateRow t s) s = updateRow t s := by
  show setA (setA (updateRow t s) "SALES" (getCol s "SALES")) "REVENUE"
      (getCol s "REVENUE") = updateRow t s
  rw [setA_eq_self (hasKey_updateRow_sales t s) (entry_val_updateRow_sales t s),
    setA_eq_self (hasKey_updateRow_revenue t s) (entry_val_updateRow_revenue t s)]

theorem entry_val_insertRowOf (s : Row) :
    ∀ p ∈ insertRowOf s, p.2 = getCol s p.1 := by
  intro p hp
  rcases List.mem_map.mp hp with ⟨c, _, hc⟩
  rw [← hc]

theorem lookupA_proj (cols : List String) (s : Row) {c : String} (h : c ∈ cols) :
    lookupA (cols.map fun x => (x, getCol s x)) c = some (getCol s c) := by
  induction cols with
  | nil => cases h
  | cons d ds ih =>
    cases hd : (d == c) with
    | true =>
      have : d = c := by simpa using hd
      simp [lookupA, hd, this]
    | false =>
      have hdc : d ≠ c := by simpa using hd
      have h' : c ∈ ds := by
        rcases List.mem_cons.mp h with h1 | h1
        · exact absurd h1.symm hdc
        · exact h1
      simp [lookupA, hd, ih h']

theorem hasKey_of_lookupA_isSome {l : List (String × α)} {k : String}
    (h : (lookupA l k).isSome = true) : hasKey l k = true := by
  induction l with
  | nil => simp [lookupA] at h
  | cons p ps ih =>
    cases hp : (p.1 == k) with
    | true => simp [hasKey, List.any_cons, hp]
    | false =>
      rw [hasKey_cons, hp, Bool.false_or]
      unfold lookupA at h
      rw [hp] at h
      simp at h
      exact ih (by simpa using h)

theorem hasKey_insertRowOf (s : Row) {c : String} (h : c ∈ insertColumns) :
    hasKey (insertRowOf s) c = true := by
  refine hasKey_of_lookupA_isSome ?_
  unfold insertRowOf
  rw [lookupA_proj _ _ h]
  rfl

theorem getCol_insertRowOf (s : Row) {c : String} (h : c ∈ insertColumns) :
    getCol (insertRowOf s) c = getCol s c := by
  unfold getCol insertRowOf
  rw [lookupA_proj _ _ h]
  rfl

theorem updateRow_insertRowOf_self (s : Row) :
    updateRow (insertRowOf s) s = insertRowOf s := by
  have hvS : ∀ p ∈ insertRowOf s, p.1 = "SALES" → p.2 = getCol s "SALES" := by
    intro p hp h1
    rw [entry_val_insertRowOf s p hp, h1]
  have hvR : ∀ p ∈ insertRowOf s, p.1 = "REVENUE" → p.2 = getCol s "REVENUE" := by
    intro p hp h1
    rw [entry_val_insertRowOf s p hp, h1]
  show setA (setA (insertRowOf s) "SALES" (getCol s "SALES")) "REVENUE"
      (getCol s "REVENUE") = insertRowOf s
  rw [setA_eq_self (hasKey_insertRowOf s (by decide)) hvS,
    setA_eq_self (hasKey_insertRowOf s (by decide)) hvR]

theorem sqlEq_self_of_isSome {v : Value} (h : v.isSome = true) : sqlEq v v = true := by
  cases v with
  | none => simp at h
  | some a => simp [sqlEq]

theorem rowMatch_insertRowOf_self (s : Row) (h : nonNullKeys s = true) :
    rowMatch (insertRowOf s) s = true := by
  unfold nonNullKeys at h
  rw [Bool.and_eq_true] at h
  unfold rowMatch
  rw [getCol_insertRowOf s (by decide), getCol_insertRowOf s (by decide),
    sqlEq_self_of_isSome h.1, sqlEq_self_of_isSome h.2]
  rfl

theorem find?_congr_pred {β : Type} {p q : β → Bool} (l : List β) (h : ∀ x, p x = q x) :
    l.find? p = l.find? q := by
  have : p = q := funext h
  rw [this]

theorem find?_eq_some_of_unique {β : Type} {p : β → Bool} {l : List β} {s : β}
    (hs : s ∈ l) (hp : p s = true) (hle : (l.filter p).length ≤ 1) :
    l.find? p = some s := by
  induction l with
  | nil => cases hs
  | cons a as ih =>
    cases ha : p a with
    | true =>
      rw [List.find?_cons_of_pos _ ha]
      rcases List.mem_cons.mp hs with h | h
      · rw [h]
      · exfalso
        have hmem : s ∈ as.filter p := List.mem_filter.mpr ⟨h, hp⟩
        rw [List.filter_cons_of_pos ha] at hle
        simp only [List.length_cons] at hle
        have hzero : (as.filter p).length = 0 := by omega
        have : as.filter p = [] := List.length_eq_zero.mp hzero
        rw [this] at hmem
        cases hmem
    | false =>
      rw [List.find?_cons_of_neg _ (by simp [ha])]
      have hs' : s ∈ as := by
        rcases List.mem_cons.mp hs with h | h
        · rw [h] at hp
          rw [hp] at ha
          cases ha
        · exact h
      have hle' : (as.filter p).length ≤ 1 := by
        rw [List.filter_cons_of_neg (by simp [ha])] at hle
        exact hle
      exact ih hs' hle'

theorem hasTwoMatches_eq_false_iff (src : List Row) (t : Row) :
    hasTwoMatches src t = false ↔ (src.filter fun s => rowMatch t s).length ≤ 1 := by
  unfold hasTwoMatches
  cases hfl : src.filter fun s => rowMatch t s with
  | nil => simp
  | cons a l =>
    cases l with
    | nil => simp
    | cons b l' => simp [Nat.succ_le_succ_iff]

theorem getD_append_of_lt {β : Type} (l m : List β) (d : β) (i : Nat)
    (h : i < l.length) : (l ++ m).getD i d = l.getD i d := by
  induction l generalizing i with
  | nil => cases h
  | cons a as ih =>
    cases i with
    | zero => rfl
    | succ j =>
      simp only [List.cons_append, List.getD_cons_succ]
      exact ih j (by simpa using h)

theorem getD_map_of_lt {β γ : Type} (f : β → γ) (l : List β) (d : β) (d' : γ) (i : Nat)
    (h : i < l.length) : (l.map f).getD i d' = f (l.getD i d) := by
  induction l generalizing i with
  | nil => cases h
  | cons a as ih =>
    cases i with
    | zero => rfl
    | succ j =>
      simp only [List.map_cons, List.getD_cons_succ]
      exact ih j (by simpa using h)

/-- Claim C1: the merge matches a staged row to a target row exactly when
both KeySpec columns are equal (logical AND); on a match only the
MergePlan update columns (SALES, REVENUE) of the target row are set to
the staged values; a staged row with no match is inserted as a new row
covering all MergePlan insert columns with the staged values. -/
theorem merge_semantics (tgt src res : List Row) (_hne : src ≠ [])
    (hok : mergeRows tgt src = Except.ok res) : MergeSemanticsSpec tgt src res := by
  have hres : res = (tgt.map fun t =>
      match src.find? (fun s => rowMatch t s) with
      | some s => updateRow t s
      | none => t) ++ ((src.filter fun s => !tgt.any fun t => rowMatch t s).map insertRowOf) := by
    unfold mergeRows at hok
    split at hok
    · cases hok
    · injection hok with h
      exact h.symm
  refine ⟨?_, ?_, ?_, ?_, ?_⟩
  · intro t s
    simp [rowMatch]
  · intro i hi
    have hlt : i < (tgt.map fun t =>
        match src.find? (fun s => rowMatch t s) with
        | some s => updateRow t s
        | none => t).length := by
      rw [List.length_map]
      exact hi
    have hgetD : res.getD i [] = (match src.find? (fun s => rowMatch (tgt.getD i []) s) with
        | some s => updateRow (tgt.getD i []) s
        | none => tgt.getD i []) := by
      rw [hres, getD_append_of_lt _ _ _ _ hlt, getD_map_of_lt _ _ ([] : Row) _ i hi]
    constructor
    · intro s hfind c
      have hcase : res.getD i [] = updateRow (tgt.getD i []) s := by
        rw [hgetD, hfind]
      rw [hcase]
      by_cases hS : c = "SALES"
      · subst hS
        rw [getCol_updateRow_sales]
        simp [updateColumns]
      · by_cases hR : c = "REVENUE"
        · subst hR
          rw [getCol_updateRow_revenue]
          simp [updateColumns]
        · rw [getCol_updateRow_other _ _ hS hR, if_neg (by simp [updateColumns, hS, hR])]
    · intro hfind
      rw [hgetD, hfind]
  · rw [hres]
    have hlen : tgt.length = (tgt.map fun t =>
        match src.find? (fun s => rowMatch t s) with
        | some s => updateRow t s
        | none => t).length := (List.length_map _ _).symm
    rw [hlen, List.drop_left]
  · intro s c hc
    exact getCol_insertRowOf s hc
  · intro s hs hnom
    rw [hres]
    refine List.mem_append.mpr (Or.inr (List.mem_map_of_mem _ (List.mem_filter.mpr ⟨hs, ?_⟩)))
    have : tgt.any (fun t => rowMatch t s) = false := by
      rw [List.any_eq_false]
      intro t ht
      rw [hnom t ht]
      simp
    rw [this]
    rfl

theorem mergeRows_idem (tgt src res res' : List Row)
    (hkeys : src.all nonNullKeys = true)
    (h1 : mergeRows tgt src = Except.ok res)
    (h2 : mergeRows res src = Except.ok res') : res' = res := by
  have hkeys' : ∀ s ∈ src, nonNullKeys s = true := by
    intro s hs
    exact (List.all_eq_true.mp hkeys) s hs
  have hres : res = (tgt.map fun t =>
      match src.find? (fun s => rowMatch t s) with
      | some s => updateRow t s
      | none => t) ++ ((src.filter fun s => !tgt.any fun t => rowMatch t s).map insertRowOf) := by
    unfold mergeRows at h1
    split at h1
    · cases h1
    · injection h1 with h
      exact h.symm
  unfold mergeRows at h2
  split at h2
  · cases h2
  · rename_i hchk
    have hcheck2 : res.any (hasTwoMatches src) = false := by simpa using hchk
    injection h2 with h2'
    have hB : (src.filter fun s => !res.any fun t => rowMatch t s) = [] := by
      rw [List.filter_eq_nil_iff]
      intro s hs
      have hany : res.any (fun t => rowMatch t s) = true := by
        by_cases hm : tgt.any (fun t => rowMatch t s) = true
        · rcases List.any_eq_true.mp hm with ⟨t, ht, hts⟩
          have hfmem : (match src.find? (fun x => rowMatch t x) with
              | some s0 => updateRow t s0
              | none => t) ∈ res := by
            rw [hres]
            exact List.mem_append.mpr (Or.inl (List.mem_map_of_mem _ ht))
          cases hfind : src.find? (fun x => rowMatch t x) with
          | none =>
            exact absurd hts (by simpa using List.find?_eq_none.mp hfind s hs)
          | some s0 =>
            rw [hfind] at hfmem
            refine List.any_eq_true.mpr ⟨updateRow t s0, hfmem, ?_⟩
            rw [rowMatch_updateRow_left]
            exact hts
        · have hmf : tgt.any (fun t => rowMatch t s) = false := by simpa using hm
          have hsfil : s ∈ src.filter fun x => !tgt.any fun t => rowMatch t x :=
            List.mem_filter.mpr ⟨hs, by rw [hmf]; rfl⟩
          have hmem : insertRowOf s ∈ res := by
            rw [hres]
            exact List.mem_append.mpr (Or.inr (List.mem_map_of_mem _ hsfil))
          exact List.any_eq_true.mpr
            ⟨insertRowOf s, hmem, rowMatch_insertRowOf_self s (hkeys' s hs)⟩
      simp [hany]
    have hA : res.map (fun t =>
        match src.find? (fun s => rowMatch t s) with
        | some s => updateRow t s
        | none => t) = res := by
      refine map_eq_self_of ?_
      intro x hx
      have hle : (src.filter fun s => rowMatch x s).length ≤ 1 := by
        have hfa := List.any_eq_false.mp hcheck2 x hx
        exact (hasTwoMatches_eq_false_iff src x).mp (by simpa using hfa)
      rw [hres] at hx
      rcases List.mem_append.mp hx with hx | hx
      · rcases List.mem_map.mp hx with ⟨t, ht, hft⟩
        cases hfind : src.find? (fun y => rowMatch t y) with
        | none =>
          rw [hfind] at hft
          have hxt : t = x := hft
          subst hxt
          rw [hfind]
        | some s0 =>
          rw [hfind] at hft
          have hxt : updateRow t s0 = x := hft
          rw [← hxt]
          have hfind2 : src.find? (fun y => rowMatch (updateRow t s0) y) = some s0 := by
            rw [find?_congr_pred src (fun y => rowMatch_updateRow_left t s0 y), hfind]
          rw [hfind2]
          show updateRow (updateRow t s0) s0 = updateRow t s0
          exact updateRow_updateRow_self t s0
      · rcases List.mem_map.mp hx with ⟨s0, hs0f, hmap⟩
        have hs0 : s0 ∈ src := List.mem_of_mem_filter hs0f
        have hself : rowMatch x s0 = true := by
          rw [← hmap]
          exact rowMatch_insertRowOf_self s0 (hkeys' s0 hs0)
        have hfind : src.find? (fun y => rowMatch x y) = some s0 :=
          find?_eq_some_of_unique hs0 hself hle
        rw [hfind]
        show updateRow x s0 = x
        rw [← hmap]
        exact updateRow_insertRowOf_self s0
    rw [← h2', hB, List.map_nil, List.append_nil, hA]

/-- Witness for `merge_semantics`: a concrete merge exercising both the
update path and the insert path. -/
theorem merge_semantics_witness :
    ([rowS1, rowS2] ≠ ([] : List Row) ∧
      mergeRows [rowT1] [rowS1, rowS2] =
        Except.ok [updateRow rowT1 rowS1, insertRowOf rowS2]) ∧
    MergeSemanticsSpec [rowT1] [rowS1, rowS2] [updateRow rowT1 rowS1, insertRowOf rowS2] :=
  ⟨⟨by decide, by rfl⟩, merge_semantics _ _ _ (by decide) (by rfl)⟩

theorem ne_stagingTableName (t : String) : t ≠ stagingTableName t := by
  intro h
  have hlen := congrArg String.length h
  rw [stagingTableName, String.length_append] at hlen
  have h8 : "_STAGING".length = 8 := rfl
  omega

theorem lookupTable_setTable_self (w : Warehouse) (n : String) (t : Table) :
    lookupTable (setTable w n t) n = some t :=
  lookupA_setA_self w n t

theorem lookupTable_setTable_ne (w : Warehouse) {n m : String} (t : Table) (h : n ≠ m) :
    lookupTable (setTable w m t) n = lookupTable w n :=
  lookupA_setA_ne w t h

theorem setTable_setTable_self (w : Warehouse) (n : String) (t t' : Table) :
    setTable (setTable w n t) n t' = setTable w n t' :=
  setA_setA_self w n t t'

theorem createStagingStep_some {w : Warehouse} {table_name : String} {w1 : Warehouse}
    (h : createStagingStep w table_name = some w1) :
    ∃ tgt, lookupTable w table_name = some tgt ∧
      w1 = setTable w (stagingTableName table_name)
        { schema := tgt.schema, rows := tgt.rows.take 0, temp := true } := by
  unfold createStagingStep at h
  cases hl : lookupTable w table_name with
  | none => rw [hl] at h; cases h
  | some tgt =>
    rw [hl] at h
    injection h with h
    exact ⟨tgt, rfl, h.symm⟩

theorem loadStagingStep_some {w : Warehouse} {table_name : String} {rows : List Row}
    {w2 : Warehouse} (h : loadStagingStep w table_name rows = some w2) :
    ∃ stg, lookupTable w (stagingTableName table_name) = some stg ∧
      w2 = setTable w (stagingTableName table_name)
        { schema := stg.schema, rows := rows, temp := stg.temp } := by
  unfold loadStagingStep at h
  cases hl : lookupTable w (stagingTableName table_name) with
  | none => rw [hl] at h; cases h
  | some stg =>
    rw [hl] at h
    injection h with h
    exact ⟨stg, rfl, h.symm⟩

theorem mergeStep_some {w : Warehouse} {table_name : String} {w3 : Warehouse}
    (h : mergeStep w table_name = some w3) :
    ∃ tgt stg newRows, lookupTable w table_name = some tgt ∧
      lookupTable w (stagingTableName table_name) = some stg ∧
      mergeRows tgt.rows stg.rows = Except.ok newRows ∧
      w3 = setTable w table_name { schema := tgt.schema, rows := newRows, temp := tgt.temp } := by
  unfold mergeStep at h
  cases hl : lookupTable w table_name with
  | none => rw [hl] at h; cases h
  | some tgt =>
    rw [hl] at h
    cases hl2 : lookupTable w (stagingTableName table_name) with
    | none => rw [hl2] at h; cases h
    | some stg =>
      rw [hl2] at h
      dsimp only at h
      cases hm : mergeRows tgt.rows stg.rows with
      | error e => rw [hm] at h; cases h
      | ok newRows =>
        rw [hm] at h
        injection h with h
        exact ⟨tgt, stg, newRows, rfl, rfl, hm, h.symm⟩

/-- Claim C4: any failing step aborts the remaining steps (in particular
the merge is never executed) and signals failure; the target table is
never written; staging data already written is not rolled back and
survives in the resulting state, relying only on the staging table's
session-scoped temp flag for cleanup. -/
theorem upsert_failure_aborts (sess : SnowSession) (w : Warehouse) (rows : List Row)
    (table_name : String) (hne : rows ≠ [])
    (hfail : sess.createFails = true ∨ sess.loadFails = true ∨ sess.mergeFails = true) :
    (upsert_data sess rows table_name w).2.1 = UpsertResult.failure ∧
    (∀ a b, Op.mergeInto a b ∉ (upsert_data sess rows table_name w).2.2) ∧
    lookupTable (upsert_data sess rows table_name w).1 table_name =
      lookupTable w table_name ∧
    (∀ n r, Op.bulkLoad n r ∈ (upsert_data sess rows table_name w).2.2 →
      ∃ s, lookupTable (upsert_data sess rows table_name w).1 n = some s ∧
        s.rows = r ∧ s.temp = true) ∧
    (sess.createFails = true →
      upsert_data sess rows table_name w = (w, UpsertResult.failure, [])) := by
  have hEmpty : rows.isEmpty = false := by
    cases rows with
    | nil => exact absurd rfl hne
    | cons a l => rfl
  have hchar : (upsert_data sess rows table_name w = (w, UpsertResult.failure, [])) ∨
      (∃ tgt, lookupTable w table_name = some tgt ∧
        upsert_data sess rows table_name w =
          (setTable w (stagingTableName table_name)
              { schema := tgt.schema, rows := tgt.rows.take 0, temp := true },
            UpsertResult.failure, [Op.createStaging (stagingTableName table_name)])) ∨
      (∃ tgt, lookupTable w table_name = some tgt ∧
        upsert_data sess rows table_name w =
          (setTable w (stagingTableName table_name)
              { schema := tgt.schema, rows := rows, temp := true },
            UpsertResult.failure,
            [Op.createStaging (stagingTableName table_name),
              Op.bulkLoad (stagingTableName table_name) rows])) := by
    cases hc : sess.createFails with
    | true =>
      left
      unfold upsert_data
      simp [hEmpty, hc]
    | false =>
      cases hcs : createStagingStep w table_name with
      | none =>
        left
        unfold upsert_data
        simp [hEmpty, hc, hcs]
      | some w1 =>
        obtain ⟨tgt, htgt, hw1⟩ := createStagingStep_some hcs
        cases hl : sess.loadFails with
        | true =>
          right; left
          refine ⟨tgt, htgt, ?_⟩
          unfold upsert_data
          simp [hEmpty, hc, hcs, hl, hw1]
        | false =>
          have hlw : lookupTable w1 (stagingTableName table_name) =
              some { schema := tgt.schema, rows := tgt.rows.take 0, temp := true } := by
            rw [hw1]
            exact lookupTable_setTable_self _ _ _
          have hls : loadStagingStep w1 table_name rows =
              some (setTable w (stagingTableName table_name)
                { schema := tgt.schema, rows := rows, temp := true }) := by
            unfold loadStagingStep
            rw [hlw, hw1]
            dsimp only
            rw [setTable_setTable_self]
          cases hm : sess.mergeFails with
          | true =>
            right; right
            refine ⟨tgt, htgt, ?_⟩
            unfold upsert_data
            simp [hEmpty, hc, hcs, hl, hls, hm]
          | false =>
            exfalso
            rcases hfail with h | h | h
            · rw [hc] at h; cases h
            · rw [hl] at h; cases h
            · rw [hm] at h; cases h
  have hne' : table_name ≠ stagingTableName table_name := ne_stagingTableName table_name
  refine ⟨?_, ?_, ?_, ?_, ?_⟩
  · rcases hchar with h | ⟨tgt, _, h⟩ | ⟨tgt, _, h⟩ <;> rw [h]
  · intro a b
    rcases hchar with h | ⟨tgt, _, h⟩ | ⟨tgt, _, h⟩ <;> rw [h] <;> simp
  · rcases hchar with h | ⟨tgt, _, h⟩ | ⟨tgt, _, h⟩ <;> rw [h]
    · exact lookupTable_setTable_ne w _ hne'
    · exact lookupTable_setTable_ne w _ hne'
  · intro n r hmem
    rcases hchar with h | ⟨tgt, _, h⟩ | ⟨tgt, _, h⟩ <;> rw [h] at hmem ⊢
    · simp at hmem
    · simp at hmem
    · simp only [List.mem_cons, List.mem_singleton] at hmem
      rcases hmem with hmem | hmem | hmem
      · cases hmem
      · injection hmem with h1 h2
        rw [h1, h2]
        exact ⟨{ schema := tgt.schema, rows := rows, temp := true },
          lookupTable_setTable_self _ _ _, rfl, rfl⟩
      · cases hmem
  · intro hc
    unfold upsert_data
    simp [hEmpty, hc]

/-- Witness for `upsert_failure_aborts`: merge step fails on a concrete
call after staging was created and loaded. -/
theorem upsert_failure_aborts_witness :
    ([rowS1] ≠ ([] : List Row) ∧
      ((⟨false, false, true⟩ : SnowSession).createFails = true ∨
        (⟨false, false, true⟩ : SnowSession).loadFails = true ∨
        (⟨false, false, true⟩ : SnowSession).mergeFails = true)) ∧
    ((upsert_data ⟨false, false, true⟩ [rowS1] "SALES_REVENUE" w0).2.1 =
        UpsertResult.failure ∧
      (∀ a b, Op.mergeInto a b ∉
        (upsert_data ⟨false, false, true⟩ [rowS1] "SALES_REVENUE" w0).2.2) ∧
      lookupTable (upsert_data ⟨false, false, true⟩ [rowS1] "SALES_REVENUE" w0).1
          "SALES_REVENUE" = lookupTable w0 "SALES_REVENUE" ∧
      (∀ n r, Op.bulkLoad n r ∈
          (upsert_data ⟨false, false, true⟩ [rowS1] "SALES_REVENUE" w0).2.2 →
        ∃ s, lookupTable (upsert_data ⟨false, false, true⟩ [rowS1] "SALES_REVENUE" w0).1 n =
            some s ∧ s.rows = r ∧ s.temp = true) ∧
      ((⟨false, false, true⟩ : SnowSession).createFails = true →
        upsert_data ⟨false, false, true⟩ [rowS1] "SALES_REVENUE" w0 =
          (w0, UpsertResult.failure, []))) :=
  ⟨⟨by decide, Or.inr (Or.inr rfl)⟩,
    upsert_failure_aborts ⟨false, false, true⟩ w0 [rowS1] "SALES_REVENUE" (by decide)
      (Or.inr (Or.inr rfl))⟩

/-- Claim C5: for a non-empty upsert against an existing target, step 2
creates the staging table as a session-scoped temp table with the
target's schema and zero rows (`SELECT * FROM target LIMIT 0`), observed
through the run whose bulk load fails right after creation; and after the
full run the staging table still carries the target's schema and the temp
flag. -/
theorem staging_created_temp_schema_mirrored (w : Warehouse) (rows : List Row)
    (table_name : String) (tgt : Table) (hne : rows ≠ [])
    (htgt : lookupTable w table_name = some tgt) :
    lookupTable ((upsert_data ⟨false, true, false⟩ rows table_name w).1)
        (stagingTableName table_name) =
      some { schema := tgt.schema, rows := tgt.rows.take 0, temp := true } ∧
    tgt.rows.take 0 = ([] : List Row) ∧
    lookupTable ((upsert_data ⟨false, false, false⟩ rows table_name w).1)
        (stagingTableName table_name) =
      some { schema := tgt.schema, rows := rows, temp := true } := by
  have hEmpty : rows.isEmpty = false := by
    cases rows with
    | nil => exact absurd rfl hne
    | cons a l => rfl
  have hcs : createStagingStep w table_name =
      some (setTable w (stagingTableName table_name)
        { schema := tgt.schema, rows := [], temp := true }) := by
    unfold createStagingStep
    rw [htgt]
    dsimp only
    rw [List.take_zero]
  have hrun1 : (upsert_data ⟨false, true, false⟩ rows table_name w).1 =
      setTable w (stagingTableName table_name)
        { schema := tgt.schema, rows := [], temp := true } := by
    unfold upsert_data
    simp [hEmpty, hcs]
  have hlw : lookupTable (setTable w (stagingTableName table_name)
        { schema := tgt.schema, rows := [], temp := true })
        (stagingTableName table_name) =
      some { schema := tgt.schema, rows := [], temp := true } :=
    lookupTable_setTable_self _ _ _
  have hls : loadStagingStep
      (setTable w (stagingTableName table_name)
        { schema := tgt.schema, rows := [], temp := true })
      table_name rows =
      some (setTable w (stagingTableName table_name)
        { schema := tgt.schema, rows := rows, temp := true }) := by
    unfold loadStagingStep
    rw [hlw]
    dsimp only
    rw [setTable_setTable_self]
  refine ⟨by rw [List.take_zero, hrun1]; exact hlw, List.take_zero tgt.rows, ?_⟩
  have hstg_ne : stagingTableName table_name ≠ table_name :=
    fun h => ne_stagingTableName table_name h.symm
  cases hms : mergeStep (setTable w (stagingTableName table_name)
      { schema := tgt.schema, rows := rows, temp := true }) table_name with
  | none =>
    have hrun2 : (upsert_data ⟨false, false, false⟩ rows table_name w).1 =
        setTable w (stagingTableName table_name)
          { schema := tgt.schema, rows := rows, temp := true } := by
      unfold upsert_data
      simp [hEmpty, hcs, hls, hms]
    rw [hrun2]
    exact lookupTable_setTable_self _ _ _
  | some w3 =>
    have hrun2 : (upsert_data ⟨false, false, false⟩ rows table_name w).1 = w3 := by
      unfold upsert_data
      simp [hEmpty, hcs, hls, hms]
    obtain ⟨tgt2, stg2, newRows, _, _, _, hw3⟩ := mergeStep_some hms
    rw [hrun2, hw3, lookupTable_setTable_ne _ _ hstg_ne]
    exact lookupTable_setTable_self _ _ _

/-- Witness for `staging_created_temp_schema_mirrored` at a concrete
call. -/
theorem staging_created_witness :
    ([rowS1] ≠ ([] : List Row) ∧
      lookupTable w0 "SALES_REVENUE" =
        some { schema := ["ORGANIZATIONID", "LEVEL1FORCEID", "SALES", "REVENUE"],
               rows := [rowT1], temp := false }) ∧
    (lookupTable ((upsert_data ⟨false, true, false⟩ [rowS1] "SALES_REVENUE" w0).1)
        (stagingTableName "SALES_REVENUE") =
      some { schema := ["ORGANIZATIONID", "LEVEL1FORCEID", "SALES", "REVENUE"],
             rows := ([] : List Row), temp := true } ∧
    (List.take 0 [rowT1] : List Row) = ([] : List Row) ∧
    lookupTable ((upsert_data ⟨false, false, false⟩ [rowS1] "SALES_REVENUE" w0).1)
        (stagingTableName "SALES_REVENUE") =
      some { schema := ["ORGANIZATIONID", "LEVEL1FORCEID", "SALES", "REVENUE"],
             rows := [rowS1], temp := true }) :=
  ⟨⟨by decide, by rfl⟩,
    staging_created_temp_schema_mirrored w0 [rowS1] "SALES_REVENUE"
      { schema := ["ORGANIZATIONID", "LEVEL1FORCEID", "SALES", "REVENUE"],
        rows := [rowT1], temp := false } (by decide) (by rfl)⟩

theorem upsert_trace_cases (sess : SnowSession) (w : Warehouse) (rows : List Row)
    (table_name : String) :
    (upsert_data sess rows table_name w).2.2 = [] ∨
    (upsert_data sess rows table_name w).2.2 =
      [Op.createStaging (stagingTableName table_name)] ∨
    (upsert_data sess rows table_name w).2.2 =
      [Op.createStaging (stagingTableName table_name),
        Op.bulkLoad (stagingTableName table_name) rows] ∨
    (upsert_data sess rows table_name w).2.2 =
      [Op.createStaging (stagingTableName table_name),
        Op.bulkLoad (stagingTableName table_name) rows,
        Op.mergeInto table_name (stagingTableName table_name)] := by
  cases hE : rows.isEmpty with
  | true =>
    left
    unfold upsert_data
    simp [hE]
  | false =>
    cases hc : sess.createFails with
    | true =>
      left
      unfold upsert_data
      simp [hE, hc]
    | false =>
      cases hcs : createStagingStep w table_name with
      | none =>
        left
        unfold upsert_data
        simp [hE, hc, hcs]
      | some w1 =>
        cases hl : sess.loadFails with
        | true =>
          right; left
          unfold upsert_data
          simp [hE, hc, hcs, hl]
        | false =>
          cases hls : loadStagingStep w1 table_name rows with
          | none =>
            right; left
            unfold upsert_data
            simp [hE, hc, hcs, hl, hls]
          | some w2 =>
            cases hm : sess.mergeFails with
            | true =>
              right; right; left
              unfold upsert_data
              simp [hE, hc, hcs, hl, hls, hm]
            | false =>
              cases hms : mergeStep w2 table_name with
              | none =>
                right; right; left
                unfold upsert_data
                simp [hE, hc, hcs, hl, hls, hm, hms]
              | some w3 =>
                right; right; right
                unfold upsert_data
                simp [hE, hc, hcs, hl, hls, hm, hms]

/-- Claim C6: the staging-table name used by any upsert call is the fixed
string `table_name ++ "_STAGING"` — a deterministic function of the
target table name alone, not call-scoped, so any two calls targeting the
same table use the identical staging name. -/
theorem staging_name_fixed_per_table (table_name : String) :
    (∀ sess w rows n, Op.createStaging n ∈ (upsert_data sess rows table_name w).2.2 →
      n = stagingTableName table_name) ∧
    (∀ sess1 w1 rows1 n1 sess2 w2 rows2 n2,
      Op.createStaging n1 ∈ (upsert_data sess1 rows1 table_name w1).2.2 →
      Op.createStaging n2 ∈ (upsert_data sess2 rows2 table_name w2).2.2 →
      n1 = n2) ∧
    stagingTableName table_name = table_name ++ "_STAGING" := by
  have h1 : ∀ sess w rows n,
      Op.createStaging n ∈ (upsert_data sess rows table_name w).2.2 →
      n = stagingTableName table_name := by
    intro sess w rows n hmem
    rcases upsert_trace_cases sess w rows table_name with h | h | h | h <;> rw [h] at hmem
    · cases hmem
    · simpa using hmem
    · simp only [List.mem_cons, List.mem_singleton] at hmem
      rcases hmem with hmem | hmem | hmem
      · injection hmem
      · cases hmem
      · cases hmem
    · simp only [List.mem_cons, List.mem_singleton] at hmem
      rcases hmem with hmem | hmem | hmem | hmem
      · injection hmem
      · cases hmem
      · cases hmem
      · cases hmem
  refine ⟨h1, ?_, rfl⟩
  intro sess1 w1 rows1 n1 sess2 w2 rows2 n2 hm1 hm2
  rw [h1 sess1 w1 rows1 n1 hm1, h1 sess2 w2 rows2 n2 hm2]

/-- Witness for `staging_name_fixed_per_table`: two concrete calls
against SALES_REVENUE both create SALES_REVENUE_STAGING. -/
theorem staging_name_fixed_witness :
    (Op.createStaging "SALES_REVENUE_STAGING" ∈
        (upsert_data ⟨false, false, false⟩ [rowS1] "SALES_REVENUE" w0).2.2 ∧
      Op.createStaging "SALES_REVENUE_STAGING" ∈
        (upsert_data ⟨false, true, false⟩ [rowS2] "SALES_REVENUE" w0).2.2) ∧
    "SALES_REVENUE_STAGING" = "SALES_REVENUE_STAGING" :=
  ⟨⟨by decide, by decide⟩,
    (staging_name_fixed_per_table "SALES_REVENUE").2.1
      ⟨false, false, false⟩ w0 [rowS1] "SALES_REVENUE_STAGING"
      ⟨false, true, false⟩ w0 [rowS2] "SALES_REVENUE_STAGING"
      (by decide) (by decide)⟩

theorem hasKey_setTable_self (w : Warehouse) (n : String) (t : Table) :
    hasKey (setTable w n t) n = true :=
  hasKey_setA_self w n t

theorem setTable_comm (w : Warehouse) {n m : String} (t u : Table) (hne : n ≠ m)
    (hk : hasKey w n = true ∨ hasKey w m = true) :
    setTable (setTable w n t) m u = setTable (setTable w m u) n t :=
  setA_comm w t u hne hk

/-- Claim C3: running the upsert a second time with the identical
non-empty row set, all of whose key columns are non-null, leaves the
warehouse (in particular the target table) in exactly the state the
first run produced: the second merge only rewrites matched rows with the
same values and inserts nothing. -/
theorem upsert_idempotent (w : Warehouse) (rows : List Row) (table_name : String)
    (hne : rows ≠ []) (hkeys : rows.all nonNullKeys = true) :
    (upsert_data ⟨false, false, false⟩ rows table_name
        ((upsert_data ⟨false, false, false⟩ rows table_name w).1)).1 =
      (upsert_data ⟨false, false, false⟩ rows table_name w).1 := by
  have hEmpty : rows.isEmpty = false := by
    cases rows with
    | nil => exact absurd rfl hne
    | cons a l => rfl
  have hstg_ne : table_name ≠ stagingTableName table_name :=
    ne_stagingTableName table_name
  have hstg_ne' : stagingTableName table_name ≠ table_name := fun h => hstg_ne h.symm
  cases htgt : lookupTable w table_name with
  | none =>
    have hcs : createStagingStep w table_name = none := by
      unfold createStagingStep
      rw [htgt]
    have hrun : (upsert_data ⟨false, false, false⟩ rows table_name w).1 = w := by
      unfold upsert_data
      simp [hEmpty, hcs]
    rw [hrun]
    exact hrun
  | some tgt =>
    have hcs : createStagingStep w table_name =
        some (setTable w (stagingTableName table_name)
          { schema := tgt.schema, rows := [], temp := true }) := by
      unfold createStagingStep
      rw [htgt]
      dsimp only
      rw [List.take_zero]
    have hls : loadStagingStep
        (setTable w (stagingTableName table_name)
          { schema := tgt.schema, rows := [], temp := true })
        table_name rows =
        some (setTable w (stagingTableName table_name)
          { schema := tgt.schema, rows := rows, temp := true }) := by
      unfold loadStagingStep
      rw [lookupTable_setTable_self]
      dsimp only
      rw [setTable_setTable_self]
    have hl1 : lookupTable (setTable w (stagingTableName table_name)
        { schema := tgt.schema, rows := rows, temp := true }) table_name = some tgt := by
      rw [lookupTable_setTable_ne _ _ hstg_ne]
      exact htgt
    cases hmr : mergeRows tgt.rows rows with
    | error e =>
      have hms : mergeStep (setTable w (stagingTableName table_name)
          { schema := tgt.schema, rows := rows, temp := true }) table_name = none := by
        unfold mergeStep
        rw [hl1, lookupTable_setTable_self]
        dsimp only
        rw [hmr]
      have hrun1 : (upsert_data ⟨false, false, false⟩ rows table_name w).1 =
          setTable w (stagingTableName table_name)
            { schema := tgt.schema, rows := rows, temp := true } := by
        unfold upsert_data
        simp [hEmpty, hcs, hls, hms]
      have htgt2 : lookupTable (setTable w (stagingTableName table_name)
          { schema := tgt.schema, rows := rows, temp := true }) table_name = some tgt := hl1
      have hcs2 : createStagingStep (setTable w (stagingTableName table_name)
          { schema := tgt.schema, rows := rows, temp := true }) table_name =
          some (setTable w (stagingTableName table_name)
            { schema := tgt.schema, rows := [], temp := true }) := by
        unfold createStagingStep
        rw [htgt2]
        dsimp only
        rw [List.take_zero, setTable_setTable_self]
      have hrun2 : (upsert_data ⟨false, false, false⟩ rows table_name
          (setTable w (stagingTableName table_name)
            { schema := tgt.schema, rows := rows, temp := true })).1 =
          setTable w (stagingTableName table_name)
            { schema := tgt.schema, rows := rows, temp := true } := by
        unfold upsert_data
        simp [hEmpty, hcs2, hls, hms]
      rw [hrun1]
      exact hrun2
    | ok res =>
      have hres2 : ∀ res2, mergeRows res rows = Except.ok res2 → res2 = res := by
        intro res2 h2
        exact mergeRows_idem tgt.rows rows res res2 hkeys hmr h2
      have hms : mergeStep (setTable w (stagingTableName table_name)
          { schema := tgt.schema, rows := rows, temp := true }) table_name =
          some (setTable (setTable w (stagingTableName table_name)
              { schema := tgt.schema, rows := rows, temp := true }) table_name
            { schema := tgt.schema, rows := res, temp := tgt.temp }) := by
        unfold mergeStep
        rw [hl1, lookupTable_setTable_self]
        dsimp only
        rw [hmr]
      have hrun1 : (upsert_data ⟨false, false, false⟩ rows table_name w).1 =
          setTable (setTable w (stagingTableName table_name)
              { schema := tgt.schema, rows := rows, temp := true }) table_name
            { schema := tgt.schema, rows := res, temp := tgt.temp } := by
        unfold upsert_data
        simp [hEmpty, hcs, hls, hms]
      -- run 1 leaves staging already holding `rows`, so rewriting it in
      -- run 2 is a no-op on the warehouse
      have hfix : setTable (setTable (setTable w (stagingTableName table_name)
            { schema := tgt.schema, rows := rows, temp := true }) table_name
            { schema := tgt.schema, rows := res, temp := tgt.temp })
          (stagingTableName table_name)
          { schema := tgt.schema, rows := rows, temp := true } =
          setTable (setTable w (stagingTableName table_name)
            { schema := tgt.schema, rows := rows, temp := true }) table_name
            { schema := tgt.schema, rows := res, temp := tgt.temp } := by
        rw [setTable_comm _ _ _ hstg_ne
            (Or.inr (hasKey_setTable_self w (stagingTableName table_name)
              { schema := tgt.schema, rows := rows, temp := true })),
          setTable_setTable_self]
      have htgt2 : lookupTable (setTable (setTable w (stagingTableName table_name)
          { schema := tgt.schema, rows := rows, temp := true }) table_name
          { schema := tgt.schema, rows := res, temp := tgt.temp }) table_name =
          some { schema := tgt.schema, rows := res, temp := tgt.temp } :=
        lookupTable_setTable_self _ _ _
      have hlstg2 : lookupTable (setTable (setTable w (stagingTableName table_name)
          { schema := tgt.schema, rows := rows, temp := true }) table_name
          { schema := tgt.schema, rows := res, temp := tgt.temp })
          (stagingTableName table_name) =
          some { schema := tgt.schema, rows := rows, temp := true } := by
        rw [lookupTable_setTable_ne _ _ hstg_ne']
        exact lookupTable_setTable_self _ _ _
      have hcs2 : createStagingStep (setTable (setTable w (stagingTableName table_name)
          { schema := tgt.schema, rows := rows, temp := true }) table_name
          { schema := tgt.schema, rows := res, temp := tgt.temp }) table_name =
          some (setTable (setTable (setTable w (stagingTableName table_name)
              { schema := tgt.schema, rows := rows, temp := true }) table_name
              { schema := tgt.schema, rows := res, temp := tgt.temp })
            (stagingTableName table_name)
            { schema := tgt.schema, rows := [], temp := true }) := by
        unfold createStagingStep
        rw [htgt2]
        dsimp only
        rw [List.take_zero]
      have hls2 : loadStagingStep (setTable (setTable (setTable w (stagingTableName table_name)
            { schema := tgt.schema, rows := rows, temp := true }) table_name
            { schema := tgt.schema, rows := res, temp := tgt.temp })
          (stagingTableName table_name)
          { schema := tgt.schema, rows := [], temp := true }) table_name rows =
          some (setTable (setTable w (stagingTableName table_name)
            { schema := tgt.schema, rows := rows, temp := true }) table_name
            { schema := tgt.schema, rows := res, temp := tgt.temp }) := by
        unfold loadStagingStep
        rw [lookupTable_setTable_self]
        dsimp only
        rw [setTable_setTable_self]
        rw [hfix]
      cases hmr2 : mergeRows res rows with
      | error e2 =>
        have hms2 : mergeStep (setTable (setTable w (stagingTableName table_name)
            { schema := tgt.schema, rows := rows, temp := true }) table_name
            { schema := tgt.schema, rows := res, temp := tgt.temp }) table_name = none := by
          unfold mergeStep
          rw [htgt2, hlstg2]
          dsimp only
          rw [hmr2]
        have hrun2 : (upsert_data ⟨false, false, false⟩ rows table_name
            (setTable (setTable w (stagingTableName table_name)
              { schema := tgt.schema, rows := rows, temp := true }) table_name
              { schema := tgt.schema, rows := res, temp := tgt.temp })).1 =
            setTable (setTable w (stagingTableName table_name)
              { schema := tgt.schema, rows := rows, temp := true }) table_name
              { schema := tgt.schema, rows := res, temp := tgt.temp } := by
          unfold upsert_data
          simp [hEmpty, hcs2, hls2, hms2]
        rw [hrun1]
        exact hrun2
      | ok res2 =>
        have he : res2 = res := hres2 res2 hmr2
        subst he
        have hms2 : mergeStep (setTable (setTable w (stagingTableName table_name)
            { schema := tgt.schema, rows := rows, temp := true }) table_name
            { schema := tgt.schema, rows := res2, temp := tgt.temp }) table_name =
            some (setTable (setTable (setTable w (stagingTableName table_name)
                { schema := tgt.schema, rows := rows, temp := true }) table_name
                { schema := tgt.schema, rows := res2, temp := tgt.temp }) table_name
              { schema := tgt.schema, rows := res2, temp := tgt.temp }) := by
          unfold mergeStep
          rw [htgt2, hlstg2]
          dsimp only
          rw [hmr2]
        have hrun2 : (upsert_data ⟨false, false, false⟩ rows table_name
            (setTable (setTable w (stagingTableName table_name)
              { schema := tgt.schema, rows := rows, temp := true }) table_name
              { schema := tgt.schema, rows := res2, temp := tgt.temp })).1 =
            setTable (setTable (setTable w (stagingTableName table_name)
                { schema := tgt.schema, rows := rows, temp := true }) table_name
                { schema := tgt.schema, rows := res2, temp := tgt.temp }) table_name
              { schema := tgt.schema, rows := res2, temp := tgt.temp } := by
          unfold upsert_data
          simp [hEmpty, hcs2, hls2, hms2]
        rw [hrun1, hrun2]
        exact setTable_setTable_self _ _ _ _

/-- Witness for `upsert_idempotent` at a concrete call covering both an
update and an insert in the first run. -/
theorem upsert_idempotent_witness :
    ([rowS1, rowS2] ≠ ([] : List Row) ∧
      ([rowS1, rowS2] : List Row).all nonNullKeys = true) ∧
    (upsert_data ⟨false, false, false⟩ [rowS1, rowS2] "SALES_REVENUE"
        ((upsert_data ⟨false, false, false⟩ [rowS1, rowS2] "SALES_REVENUE" w0).1)).1 =
      (upsert_data ⟨false, false, false⟩ [rowS1, rowS2] "SALES_REVENUE" w0).1 :=
  ⟨⟨by decide, by decide⟩,
    upsert_idempotent w0 [rowS1, rowS2] "SALES_REVENUE" (by decide) (by decide)⟩

theorem create_session_none_error_msg (env : SnowEnv) {msgs : List Msg}
    (h : create_snowflake_session env = (none, msgs)) :
    ∃ m, Msg.error m ∈ msgs := by
  unfold create_snowflake_session at h
  cases hs : env.secretsLookup with
  | error e =>
    rw [hs] at h
    injection h with h1 h2
    exact ⟨"Error creating Snowflake session: " ++ e, by rw [← h2]; simp⟩
  | ok b =>
    cases b with
    | false =>
      rw [hs] at h
      injection h with h1 h2
      exact ⟨"Snowflake credentials not found in secrets.toml.", by rw [← h2]; simp⟩
    | true =>
      rw [hs] at h
      dsimp only at h
      cases hcn : env.connect with
      | error e =>
        rw [hcn] at h
        injection h with h1 h2
        exact ⟨"Error creating Snowflake session: " ++ e, by rw [← h2]; simp⟩
      | ok b2 =>
        cases b2 with
        | false =>
          rw [hcn] at h
          injection h with h1 h2
          exact ⟨"Failed to create Snowflake session.", by rw [← h2]; simp⟩
        | true =>
          rw [hcn] at h
          injection h with h1 h2
          cases h1

/-- Claim C7: when the fetch errors — including failure to obtain a
session — it returns an empty RowSet instead of propagating the error,
an error message is reported, and on the initial page load the page
degrades to the "No data to display." empty-state message (the script
completes, it does not terminate). -/
theorem fetch_error_empty_and_degrades (env : SnowEnv) (q : String)
    (h : (create_snowflake_session env).1 = none ∨
      ∃ e, env.runQuery q = Except.error e) :
    (fetch_and_display_data env q).1 = [] ∧
    (∃ m, Msg.error m ∈ (fetch_and_display_data env q).2.1) ∧
    (q = query → ∀ sess w sel inputs,
      ∃ msgs, page_script env sess w sel inputs false false =
          ScriptOutcome.completed msgs w ∧
        Msg.info "No data to display." ∈ msgs) := by
  have hfetch : (fetch_and_display_data env q).1 = [] ∧
      ∃ m, Msg.error m ∈ (fetch_and_display_data env q).2.1 := by
    cases hc : create_snowflake_session env with
    | mk o msgs =>
      cases o with
      | none =>
        have hmsg := create_session_none_error_msg env hc
        unfold fetch_and_display_data
        rw [hc]
        exact ⟨rfl, hmsg⟩
      | some u =>
        rcases h with hnone | ⟨e, herr⟩
        · rw [hc] at hnone
          cases hnone
        · unfold fetch_and_display_data
          rw [hc, herr]
          refine ⟨rfl, ⟨"Error fetching data from Snowflake: " ++ e, ?_⟩⟩
          simp
  refine ⟨hfetch.1, hfetch.2, ?_⟩
  intro hq sess w sel inputs
  subst hq
  refine ⟨(pageFetch env).2.1 ++ [Msg.info "No data to display."], ?_, by simp⟩
  have hdf : (pageFetch env).1 = [] := hfetch.1
  unfold page_script
  dsimp only
  rw [hdf]
  simp

/-- Witness for `fetch_error_empty_and_degrades`: the environment whose
read query raises. -/
theorem fetch_error_witness :
    ((create_snowflake_session envBad).1 = none ∨
      ∃ e, envBad.runQuery query = Except.error e) ∧
    ((fetch_and_display_data envBad query).1 = [] ∧
      (∃ m, Msg.error m ∈ (fetch_and_display_data envBad query).2.1) ∧
      (query = query → ∀ sess w sel inputs,
        ∃ msgs, page_script envBad sess w sel inputs false false =
            ScriptOutcome.completed msgs w ∧
          Msg.info "No data to display." ∈ msgs)) :=
  ⟨Or.inr ⟨"boom", rfl⟩,
    fetch_error_empty_and_degrades envBad query (Or.inr ⟨"boom", rfl⟩)⟩

/-- Claim C8: `insert_new_row` executes exactly one statement, the
single-row INSERT built by literal string interpolation, with the column
list taken from the field mapping's keys in order; an empty field value
is rendered as the empty-string literal, not as NULL. -/
theorem insert_builds_single_literal_statement (env : SnowEnv) (table_name : String)
    (new_row : List (String × String)) (cols : List String) (inputs : String → String) :
    insert_query table_name new_row =
      "INSERT INTO " ++ table_name ++ " (" ++
        String.intercalate ", " (new_row.map Prod.fst) ++ ") VALUES (" ++
        String.intercalate ", " (new_row.map fun p => quoteValue p.2) ++ ")" ∧
    (insert_new_row env table_name new_row).2 = [insert_query table_name new_row] ∧
    (new_row_form cols inputs).map Prod.fst = cols ∧
    quoteValue "" = "''" ∧
    quoteValue "" ≠ "NULL" := by
  refine ⟨rfl, ?_, ?_, rfl, by decide⟩
  · unfold insert_new_row
    cases hw : env.execWrite (insert_query table_name new_row) <;> simp [hw]
  · unfold new_row_form
    rw [List.map_map]
    exact List.map_id cols

/-- Claim C9 counterexample: the initial read is NOT the schema-qualified
query the specification states; the query string the page builds does not
mention the configured schema. -/
theorem query_not_schema_qualified :
    query ≠ "SELECT * FROM " ++ SCHEMA ++ "." ++ TABLE_NAME ++ " LIMIT 10" := by
  decide

/-- Claim C9 (amended): the initial read issued on every page load is
exactly the fixed string `SELECT * FROM SALES_REVENUE LIMIT 10` — the
configured table name without schema qualification, a hard cap of 10
rows, and no user-influenced parameters: any statement the fetch ever
issues on the page's behalf is that very string. -/
theorem query_fixed_unqualified :
    query = "SELECT * FROM SALES_REVENUE LIMIT 10" ∧
    (∀ env, pageFetch env =
      fetch_and_display_data env "SELECT * FROM SALES_REVENUE LIMIT 10") ∧
    (∀ env, (pageFetch env).2.2 = [] ∨
      (pageFetch env).2.2 = ["SELECT * FROM SALES_REVENUE LIMIT 10"]) := by
  refine ⟨rfl, fun env => rfl, fun env => ?_⟩
  unfold pageFetch fetch_and_display_data
  cases hc : create_snowflake_session env with
  | mk o msgs =>
    cases o with
    | none => left; rfl
    | some u =>
      cases hq : env.runQuery query with
      | ok df => right; rfl
      | error e => right; rfl

/-- Claim C10: when the initial fetch is empty, `df_sel_row` is never
bound, and pressing the Upload button evaluates it anyway: the script
run terminates with an uncaught NameError (the warehouse untouched)
instead of showing the degraded-state warning. -/
theorem upload_crashes_on_empty_fetch (env : SnowEnv) (sess : SnowSession)
    (w : Warehouse) (sel : List Row) (inputs : String → String) (formSubmitted : Bool)
    (hempty : (pageFetch env).1 = []) :
    page_script env sess w sel inputs formSubmitted true =
      ScriptOutcome.crashed "NameError: name df_sel_row is not defined" w := by
  unfold page_script
  dsimp only
  rw [hempty]
  simp

/-- Witness for `upload_crashes_on_empty_fetch`: concrete environment
whose query returns no rows. -/
theorem upload_crash_witness :
    (pageFetch envEmpty).1 = [] ∧
    page_script envEmpty ⟨false, false, false⟩ w0 [] (fun _ => "") false true =
      ScriptOutcome.crashed "NameError: name df_sel_row is not defined" w0 :=
  ⟨rfl, upload_crashes_on_empty_fetch envEmpty ⟨false, false, false⟩ w0 []
    (fun _ => "") false rfl⟩
